import Mathlib

/-!
Verification development for the Rust spreadsheet engine (`src/sheet.rs`,
`src/avl.rs`, `src/cell.rs`, `src/stack.rs`).

The embedding is shallow:
* strings are lists of character codes (`List Nat`, ASCII codepoints);
* the `Rc<RefCell<Cell>>` graph becomes an explicit `SheetData` value that is
  threaded through every operation; cell handles become `(row, col)` pairs
  (the source compares handles either by `Rc::ptr_eq` or by the coordinates
  computed with `calculate_row_col`, which agree for grid cells);
* `i32` arithmetic is embedded as integers wrapped into `[-2^31, 2^31)`
  (release-mode wrapping semantics);
* the recursions of `dfs`, `dfs_range` and `topological_sort_util` are
  fuel-indexed; callers pass `rows*cols + 1`, which over-approximates the
  recursion depth because every nested call is preceded by marking a fresh
  cell in the `visited` bitmap of `rows*cols` cells.

Viewport state (`START_ROW`, `START_COL`, `FLAG`) is presentational only and
is not modelled; the corresponding command branches return their status codes
and leave the sheet untouched, exactly as the source leaves the cell grid
untouched there.
-/

namespace Spreadsheet

/-- Character codes of a Lean string literal; used to write concrete inputs. -/
def str (s : String) : List Nat := s.toList.map Char.toNat

/-- Rust `char::is_ascii_digit`. -/
def isDigitCode (c : Nat) : Bool := 48 ≤ c && c ≤ 57

/-- Rust `char::is_ascii_uppercase`. -/
def isUpperCode (c : Nat) : Bool := 65 ≤ c && c ≤ 90

/-- Rust `char::is_ascii_lowercase`. -/
def isLowerCode (c : Nat) : Bool := 97 ≤ c && c ≤ 122

/-- Rust `char::is_ascii_alphabetic`. -/
def isAlphaCode (c : Nat) : Bool := isUpperCode c || isLowerCode c

/-- Whitespace recognised by `str::trim` (ASCII subset; the engine's inputs
are ASCII command lines). -/
def isWsCode (c : Nat) : Bool := c == 9 || c == 10 || c == 11 || c == 12 || c == 13 || c == 32

/-- Rust `str::trim`. -/
def trim (l : List Nat) : List Nat :=
  ((l.dropWhile isWsCode).reverse.dropWhile isWsCode).reverse

/-- Digit-run accumulator for integer parsing. -/
def digitsVal (ds : List Nat) : Nat := ds.foldl (fun a c => a * 10 + (c - 48)) 0

/-- Rust `str::parse::<i32>()`: optional sign, one or more digits, value must
fit in `i32`. -/
def parse_i32 (l : List Nat) : Option Int :=
  let sd : Int × List Nat :=
    match l with
    | 43 :: rest => (1, rest)
    | 45 :: rest => (-1, rest)
    | _ => (1, l)
  if sd.2 = [] then none
  else if ¬ sd.2.all isDigitCode then none
  else
    let v : Int := sd.1 * (digitsVal sd.2 : Int)
    if v < -(2 ^ 31) ∨ 2 ^ 31 - 1 < v then none else some v

/-- Rust `str::parse::<usize>()`: optional plus sign, digits, fits in `u64`. -/
def parse_usize (l : List Nat) : Option Nat :=
  let ds := match l with
    | 43 :: rest => rest
    | _ => l
  if ds = [] then none
  else if ¬ ds.all isDigitCode then none
  else if 2 ^ 64 ≤ digitsVal ds then none
  else some (digitsVal ds)

/-- Loop body of `label_to_index` (`sheet.rs:531-555`): the label is scanned
from its last character to its first, counting digits and letters, filling
`alphabet[3-count_letters]` (here `a0,a1,a2`) and `number[3-count_digits]`
(here `n0,n1,n2`, initialised to `-1`). -/
def lti_go : List Nat → Nat → Nat → Int → Int → Int → Int → Int → Int →
    Option (Int × Int × Int × Int × Int × Int)
  | [], _, _, a0, a1, a2, n0, n1, n2 => some (a0, a1, a2, n0, n1, n2)
  | ch :: rest, cl, cd, a0, a1, a2, n0, n1, n2 =>
    if isUpperCode ch then
      if cd = 0 then none
      else if cl + 1 > 3 then none
      else
        match cl with
        | 0 => lti_go rest (cl + 1) cd a0 a1 ((ch : Int) - 65 + 1) n0 n1 n2
        | 1 => lti_go rest (cl + 1) cd a0 ((ch : Int) - 65 + 1) a2 n0 n1 n2
        | _ => lti_go rest (cl + 1) cd ((ch : Int) - 65 + 1) a1 a2 n0 n1 n2
    else if isDigitCode ch then
      if cl > 0 then none
      else if cd + 1 > 3 then none
      else
        match cd with
        | 0 => lti_go rest cl (cd + 1) a0 a1 a2 n0 n1 ((ch : Int) - 48)
        | 1 => lti_go rest cl (cd + 1) a0 a1 a2 n0 ((ch : Int) - 48) n2
        | _ => lti_go rest cl (cd + 1) a0 a1 a2 ((ch : Int) - 48) n1 n2
    else none

/-- `label_to_index` (`sheet.rs:519-575`): parses a cell label such as `B2`
into 0-based `(row, col)`. -/
def label_to_index (l : List Nat) : Option (Nat × Nat) :=
  if l.length > 6 then none
  else if ¬ isUpperCode (l.headD 32) then none
  else
    match lti_go l.reverse 0 0 0 0 0 (-1) (-1) (-1) with
    | none => none
    | some (a0, a1, a2, n0, n1, n2) =>
      if (n0 = -1 ∧ n1 = -1 ∧ n2 = 0) ∨ (n0 = -1 ∧ n1 = 0) ∨ n0 = 0 then none
      else
        let m0 : Int := if n0 = -1 then 0 else n0
        let m1 : Int := if n1 = -1 then 0 else n1
        let col : Int := a2 + a1 * 26 + a0 * 26 * 26 - 1
        let row : Int := n2 + m1 * 10 + m0 * 100 - 1
        some (row.toNat, col.toNat)

/-- `col_label_to_index` (`sheet.rs:598-610`): bijective base-26 column label
to 0-based index; `None` on empty input or any non-uppercase character. -/
def col_label_to_index (l : List Nat) : Option Nat :=
  if l = [] then none
  else if ¬ l.all isUpperCode then none
  else some (l.foldl (fun a c => a * 26 + (c - 64)) 0 - 1)

/-- Loop of `col_index_to_label` (`sheet.rs:631-645`): fills the buffer from
the right; `acc` is the part of the buffer already written.  The fuel only
bounds the iteration count (the replaced index `i/26 - 1` strictly
decreases, so `i + 1` iterations always suffice and the `0` case is
unreachable from `col_index_to_label`). -/
def cil_go : Nat → Nat → List Nat → List Nat
  | 0, _, acc => acc
  | fuel + 1, i, acc =>
    let acc2 := (65 + i % 26) :: acc
    if i / 26 = 0 then acc2 else cil_go fuel (i / 26 - 1) acc2

/-- `col_index_to_label` (`sheet.rs:631-645`). -/
def col_index_to_label (index : Nat) : List Nat := cil_go (index + 1) index []

/-- `split_label_and_number` (`sheet.rs:726-746`) recursion: accumulates the
alphabetic prefix and digit suffix, rejecting interleavings. -/
def sln_go : List Nat → List Nat → List Nat → Option (List Nat × List Nat)
  | [], lab, num => if lab = [] ∨ num = [] then none else some (lab.reverse, num.reverse)
  | c :: rest, lab, num =>
    if isAlphaCode c then
      if num ≠ [] then none else sln_go rest (c :: lab) num
    else if isDigitCode c then sln_go rest lab (c :: num)
    else none

/-- `split_label_and_number` (`sheet.rs:726-746`). -/
def split_label_and_number (l : List Nat) : Option (List Nat × List Nat) :=
  sln_go l [] []

/-! ### Regex matchers (`sheet.rs:42-47`)

The four anchored regexes are embedded as string functions.  Character
classes `[A-Z]+` and `\d+` cannot overlap their neighbours, so their greedy
matches are the maximal runs; `([^\)]*)\)$` forces the final character to be
`)` with no other `)` after the digits. -/

/-- `SLEEP_REGEX_NUM`: `^SLEEP\((-?\d+)([^\)]*)\)$`; yields the signed digit
group and the (possibly empty) garbage group. -/
def matchSleepNum (t : List Nat) : Option (List Nat × List Nat) :=
  if t.take 6 ≠ str "SLEEP(" then none
  else
    let body := t.drop 6
    let sd : List Nat × List Nat :=
      match body with
      | 45 :: rest => ([45], rest)
      | _ => ([], body)
    let ds := sd.2.takeWhile isDigitCode
    let after := sd.2.dropWhile isDigitCode
    if ds = [] then none
    else if after.getLast? = some 41 ∧ ¬ 41 ∈ after.dropLast then
      some (sd.1 ++ ds, after.dropLast)
    else none

/-- `SLEEP_REGEX_CELL`: `^SLEEP\(([A-Z]+)(\d+)([^\)]*)\)$`. -/
def matchSleepCell (t : List Nat) : Option (List Nat × List Nat × List Nat) :=
  if t.take 6 ≠ str "SLEEP(" then none
  else
    let body := t.drop 6
    let u := body.takeWhile isUpperCode
    let rest1 := body.dropWhile isUpperCode
    let d := rest1.takeWhile isDigitCode
    let after := rest1.dropWhile isDigitCode
    if u = [] ∨ d = [] then none
    else if after.getLast? = some 41 ∧ ¬ 41 ∈ after.dropLast then
      some (u, d, after.dropLast)
    else none

/-- `FUNC_REGEX`: `^([A-Z]{1,9})\(([A-Z]+)(\d+):([A-Z]+)(\d+)\)(.*)$`;
the trailing `(.*)` cannot match a newline. -/
def matchFunc (t : List Nat) :
    Option (List Nat × List Nat × List Nat × List Nat × List Nat × List Nat) :=
  let fn := t.takeWhile isUpperCode
  let r0 := t.dropWhile isUpperCode
  if fn = [] ∨ fn.length > 9 then none
  else
    match r0 with
    | 40 :: r1 =>
      let lab1 := r1.takeWhile isUpperCode
      let r2 := r1.dropWhile isUpperCode
      let d1 := r2.takeWhile isDigitCode
      let r3 := r2.dropWhile isDigitCode
      if lab1 = [] ∨ d1 = [] then none
      else
        match r3 with
        | 58 :: r4 =>
          let lab2 := r4.takeWhile isUpperCode
          let r5 := r4.dropWhile isUpperCode
          let d2 := r5.takeWhile isDigitCode
          let r6 := r5.dropWhile isDigitCode
          if lab2 = [] ∨ d2 = [] then none
          else
            match r6 with
            | 41 :: r7 => if 10 ∈ r7 then none else some (fn, lab1, d1, lab2, d2, r7)
            | _ => none
        | _ => none
    | _ => none

/-- `CELL_REF_REGEX`: `^([A-Z]+)(\d+)([^\n]*)$`. -/
def matchCellRef (t : List Nat) : Option (List Nat × List Nat × List Nat) :=
  let u := t.takeWhile isUpperCode
  let r1 := t.dropWhile isUpperCode
  let d := r1.takeWhile isDigitCode
  let r2 := r1.dropWhile isDigitCode
  if u = [] ∨ d = [] then none
  else if 10 ∈ r2 then none
  else some (u, d, r2)

/-- Rust `str::find(pred)`: index of the first character satisfying the
predicate. -/
def find_first (p : Nat → Bool) : List Nat → Option Nat
  | [] => none
  | x :: xs => if p x then some 0 else (find_first p xs).map (fun i => i + 1)

/-- Rust `str::find(char)`. -/
def find_char (l : List Nat) (c : Nat) : Option Nat := find_first (fun x => x == c) l

/-- Operator search (`sheet.rs:929-931`): `"+-*/".chars().find_map(|op|
trimmed_expr.find(op) ...)` — for each operator in the order `+ - * /`, the
first occurrence in the expression; the first operator present wins. -/
def findOp (t : List Nat) : Option (Nat × Nat) :=
  [43, 45, 42, 47].findSome? (fun op => (find_char t op).map (fun i => (i, op)))

/-! ### `i32` arithmetic -/

/-- Wrap an integer into `[-2^31, 2^31)` — release-mode `i32` overflow
semantics for `+ - *` (and the model for `/`, whose overflow case
`i32::MIN / -1` is unreachable in the claims considered here). -/
def wrap32 (n : Int) : Int := (n + 2 ^ 31) % 2 ^ 32 - 2 ^ 31

/-- Rust `i32` division truncates toward zero. -/
def i32Div (a b : Int) : Int := wrap32 (Int.tdiv a b)

/-- Length of `i32::to_string` (used by the aggregate branch's index
arithmetic, `sheet.rs:1079-1092`). -/
def int_repr_len (n : Int) : Nat := (Int.repr n).length

/-! ### AVL dependency trees (`avl.rs`)

Tree nodes carry the coordinates of the cell they reference plus the stored
height, exactly as `AvlNode { cell, left, right, height }`. -/

/-- An AVL link (`avl.rs: Link = Option<Rc<RefCell<AvlNode>>>`). -/
inductive Avl where
  | nil : Avl
  | node (row col : Nat) (left right : Avl) (height : Int) : Avl
deriving DecidableEq

/-- Node count; used only for termination measures. -/
def sizeAvl : Avl → Nat
  | .nil => 0
  | .node _ _ l r _ => 1 + sizeAvl l + sizeAvl r

/-- `height` (`avl.rs:179-181`): stored height, `0` for `None`. -/
def heightA : Avl → Int
  | .nil => 0
  | .node _ _ _ _ h => h

/-- `get_balance` (`avl.rs:190-192`). -/
def get_balance : Avl → Int
  | .nil => 0
  | .node _ _ l r _ => heightA l - heightA r

/-- `compare_cells` (`avl.rs:159-167`): lexicographic on `(row, col)`. -/
def compare_cells (ar ac br bc : Nat) : Ordering :=
  if ar < br then .lt
  else if br < ar then .gt
  else if ac < bc then .lt
  else if bc < ac then .gt
  else .eq

/-- `rotate_right` (`avl.rs:206-233`); the source unwraps `y.left`, which is
present whenever the rotation is invoked. -/
def rotate_right (y : Avl) : Avl :=
  match y with
  | .node yr yc (.node xr xc xl t2 _xh) yrt _yh =>
    let newY := Avl.node yr yc t2 yrt (1 + max (heightA t2) (heightA yrt))
    Avl.node xr xc xl newY (1 + max (heightA xl) (heightA newY))
  | t => t

/-- `rotate_left` (`avl.rs:247-274`). -/
def rotate_left (x : Avl) : Avl :=
  match x with
  | .node xr xc xl (.node yr yc t2 yrt _yh) _xh =>
    let newX := Avl.node xr xc xl t2 (1 + max (heightA xl) (heightA t2))
    Avl.node yr yc newX yrt (1 + max (heightA newX) (heightA yrt))
  | t => t

/-- Coordinates stored at the root (the source reads `node.cell`). -/
def rootCell : Avl → Nat × Nat
  | .nil => (0, 0)
  | .node r c _ _ _ => (r, c)

/-- Post-insertion rebalancing of `insert` (`avl.rs:328-352`), applied to the
node whose height was just updated; `r, c` is the inserted key. -/
def insert_fix (n : Avl) (r c : Nat) : Avl :=
  match n with
  | .nil => .nil
  | .node nr nc l rt h =>
    let balance := heightA l - heightA rt
    if balance > 1 ∧ compare_cells r c (rootCell l).1 (rootCell l).2 = .lt then
      rotate_right (.node nr nc l rt h)
    else if balance < -1 ∧ compare_cells r c (rootCell rt).1 (rootCell rt).2 = .gt then
      rotate_left (.node nr nc l rt h)
    else if balance > 1 ∧ compare_cells r c (rootCell l).1 (rootCell l).2 = .gt then
      rotate_right (.node nr nc (rotate_left l) rt h)
    else if balance < -1 ∧ compare_cells r c (rootCell rt).1 (rootCell rt).2 = .lt then
      rotate_left (.node nr nc l (rotate_right rt) h)
    else .node nr nc l rt h

/-- `insert` (`avl.rs:308-358`): BST insert by `(row, col)`, duplicate keys
return the tree unchanged (before any height update), then rebalance. -/
def insertA (t : Avl) (r c : Nat) : Avl :=
  match t with
  | .nil => .node r c .nil .nil 1
  | .node nr nc l rt h =>
    match compare_cells r c nr nc with
    | .eq => .node nr nc l rt h
    | .lt =>
      let l2 := insertA l r c
      insert_fix (.node nr nc l2 rt (1 + max (heightA l2) (heightA rt))) r c
    | .gt =>
      let r2 := insertA rt r c
      insert_fix (.node nr nc l r2 (1 + max (heightA l) (heightA r2))) r c

/-- `find` (`avl.rs:385-398`): BST search by `(row, col)`; Rust tuple `Ord`
is lexicographic, i.e. `compare_cells`. -/
def findA : Avl → Nat → Nat → Option Avl
  | .nil, _, _ => none
  | .node nr nc l rt h, r, c =>
    match compare_cells r c nr nc with
    | .eq => some (.node nr nc l rt h)
    | .lt => findA l r c
    | .gt => findA rt r c

/-- `min_value_node` (`avl.rs:416-425`): leftmost node. -/
def min_value_node : Avl → Avl
  | .nil => .nil
  | .node nr nc .nil rt h => .node nr nc .nil rt h
  | .node _ _ (.node lr lc ll lrt lh) _ _ => min_value_node (.node lr lc ll lrt lh)

/-- Height update plus deletion rebalancing (`avl.rs:474-501`). -/
def delete_fix (n : Avl) : Avl :=
  match n with
  | .nil => .nil
  | .node nr nc l rt _ =>
    let h2 := 1 + max (heightA l) (heightA rt)
    let balance := heightA l - heightA rt
    if balance > 1 ∧ get_balance l ≥ 0 then rotate_right (.node nr nc l rt h2)
    else if balance > 1 ∧ get_balance l < 0 then
      rotate_right (.node nr nc (rotate_left l) rt h2)
    else if balance < -1 ∧ get_balance rt ≤ 0 then rotate_left (.node nr nc l rt h2)
    else if balance < -1 ∧ get_balance rt > 0 then
      rotate_left (.node nr nc l (rotate_right rt) h2)
    else .node nr nc l rt h2

/-- `delete_node` (`avl.rs:452-505`): BST delete by `(row, col)`; a node with
at most one child is replaced by that child with no rebalancing (the source
returns early there), the two-children case swaps in the minimum of the right
subtree. -/
def delete_node : Avl → Nat → Nat → Avl
  | .nil, _, _ => .nil
  | .node nr nc l rt h, r, c =>
    match compare_cells r c nr nc with
    | .lt => delete_fix (.node nr nc (delete_node l r c) rt h)
    | .gt => delete_fix (.node nr nc l (delete_node rt r c) h)
    | .eq =>
      match l, rt with
      | .nil, _ => rt
      | _, .nil => l
      | _, _ =>
        let m := rootCell (min_value_node rt)
        delete_fix (.node m.1 m.2 l (delete_node rt m.1 m.2) h)

/-! ### Cells and the sheet (`cell.rs`, `avl.rs: SheetData`)

In the source, `cell.dependencies` (the AVL tree) holds the cells that *read*
this cell (the reverse index), and `cell.dependents` (the LIFO stack) holds
the cells this cell's formula *reads* (the forward edges): see the calls
`add_dependency(referenced, writer)` / `push_dependent(writer, referenced)`
in `evaluate_expression`. -/

/-- `Cell` (`cell.rs:28-47`). `status`: `0` = Ok, `1` = ERR. -/
structure Cell where
  val : Int
  expression : List Nat
  status : Int
  dependencies : Avl
  dependents : List (Nat × Nat)
deriving DecidableEq

/-- A fresh cell, `Cell::new(0, "", 0)`. -/
def emptyCell : Cell := ⟨0, [], 0, .nil, []⟩

/-- `SheetData` (`avl.rs:20-26`), as the row-major grid; the `flat` vector
and `calculate_row_col` are subsumed by addressing cells with their
coordinates. -/
structure SheetData where
  cells : List (List Cell)
deriving DecidableEq

/-- `SheetData::new(rows, cols)` (`avl.rs:40-54`). -/
def mkSheet (rows cols : Nat) : SheetData :=
  ⟨List.replicate rows (List.replicate cols emptyCell)⟩

/-- Read the cell at `(r, c)`. -/
def getCell (s : SheetData) (r c : Nat) : Cell := (s.cells.getD r []).getD c emptyCell

/-- Replace the cell at `(r, c)`. -/
def setCell (s : SheetData) (r c : Nat) (cell : Cell) : SheetData :=
  ⟨s.cells.set r ((s.cells.getD r []).set c cell)⟩

/-- Update the cell at `(r, c)` in place. -/
def updCell (s : SheetData) (r c : Nat) (f : Cell → Cell) : SheetData :=
  setCell s r c (f (getCell s r c))

/-- `add_dependency(c, dep, sheet)` (`sheet.rs:55-64`): inserts `dep` into
`c.dependencies`. -/
def add_dependency (cR cC depR depC : Nat) (s : SheetData) : SheetData :=
  updCell s cR cC (fun cell => { cell with dependencies := insertA cell.dependencies depR depC })

/-- `push_dependent(cell, dep)` (`stack.rs:54-58`). -/
def push_dependent (cR cC depR depC : Nat) (s : SheetData) : SheetData :=
  updCell s cR cC (fun cell => { cell with dependents := (depR, depC) :: cell.dependents })

/-- `pop_dependent(cell)` (`stack.rs:71-92`). -/
def pop_dependent (cR cC : Nat) (s : SheetData) : Option (Nat × Nat) × SheetData :=
  match (getCell s cR cC).dependents with
  | [] => (none, s)
  | top :: rest => (some top, updCell s cR cC (fun cell => { cell with dependents := rest }))

/-- Loop of `delete_dependencies` (`sheet.rs:88-104`).  Each iteration runs
`cell1.dependents.take()` — which removes the *whole* stack from the cell —
then deletes `(row, col)` from the top dependent's AVL tree, then calls
`pop_dependent` (a no-op, since the stack was taken).  The next iteration
therefore finds the stack empty and breaks. -/
def delete_dependencies_go (row col : Nat) (s : SheetData) : Nat → SheetData
  | 0 => s
  | fuel + 1 =>
    match (getCell s row col).dependents with
    | [] => s
    | (dr, dc) :: _rest =>
      let s1 := updCell s row col (fun c => { c with dependents := [] })
      let s2 := updCell s1 dr dc
        (fun c => { c with dependencies := delete_node c.dependencies row col })
      let s3 := (pop_dependent row col s2).2
      delete_dependencies_go row col s3 fuel

/-- `delete_dependencies(row, col, sheet)` (`sheet.rs:88-104`); the fuel
bounds the number of loop iterations, which the stack length dominates. -/
def delete_dependencies (row col : Nat) (s : SheetData) : SheetData :=
  delete_dependencies_go row col s ((getCell s row col).dependents.length + 1)

/-! ### Visited bitmaps

`dfs` uses a `Vec<u64>` bitmap of at least `R*C` bits, `dfs_range` and the
topological sort use `vec![false; R*C]`; both are sets of cell indices,
embedded as a `List Bool` of length `rows*cols`. -/

/-- Test a visited bit. -/
def vtest (v : List Bool) (i : Nat) : Bool := v.getD i false

/-- Set a visited bit. -/
def vmark (v : List Bool) (i : Nat) : List Bool := v.set i true

/-! ### Cycle detection (`sheet.rs:132-244`) -/

mutual

/-- `dfs` (`sheet.rs:132-196`).  Marks the current cell visited on entry
(returning `false` if it already is), checks pointer equality with the
target, checks direct membership of the target in `current.dependencies`,
then walks that AVL tree with an explicit stack.  Note two properties of the
source preserved here: the recursive call sites mark the neighbour visited
*before* recursing (so the nested call's own entry check fires), and the tree
walk `while let Some(Some(node)) = stack.pop()` exits as soon as a `None`
child is popped.  The fuel, decremented on every step so that the recursion
is structural, only bounds the step count; `check_loop` passes a fuel that
dominates it (each loop step consumes tree material and every nested `dfs`
call is preceded by marking a fresh cell in a `rows*cols`-bit map). -/
def dfs : Nat → Nat → Nat → Nat → Nat → Nat → List Bool → SheetData → Bool × List Bool
  | 0, _, _, _, _, _, v, _ => (false, v)
  | f + 1, curR, curC, tgtR, tgtC, cols, v, s =>
    let idx := curR * cols + curC
    if vtest v idx then (false, v)
    else
      let v1 := vmark v idx
      if curR = tgtR ∧ curC = tgtC then (true, v1)
      else if (findA (getCell s curR curC).dependencies tgtR tgtC).isSome then (true, v1)
      else dfs_stack f [(getCell s curR curC).dependencies] tgtR tgtC cols v1 s
termination_by structural fuel _ _ _ _ _ _ _ => fuel

/-- The `while let Some(Some(node)) = stack.pop()` loop of `dfs`. -/
def dfs_stack : Nat → List Avl → Nat → Nat → Nat → List Bool → SheetData → Bool × List Bool
  | 0, _, _, _, _, v, _ => (false, v)
  | _ + 1, [], _, _, _, v, _ => (false, v)
  | _ + 1, .nil :: _, _, _, _, v, _ => (false, v)
  | f + 1, .node dr dc l rt _ :: rest, tgtR, tgtC, cols, v, s =>
    if dr = tgtR ∧ dc = tgtC then (true, v)
    else
      let didx := dr * cols + dc
      let hv : Bool × List Bool :=
        if vtest v didx then (false, v)
        else dfs f dr dc tgtR tgtC cols (vmark v didx) s
      if hv.1 then (true, hv.2)
      else dfs_stack f (rt :: l :: rest) tgtR tgtC cols hv.2 s
termination_by structural fuel _ _ _ _ _ _ => fuel

end

/-- Fuel that dominates any cycle-detection traversal on a `rows × cols`
sheet: at most `rows*cols + 1` nested `dfs` entries, each of whose loops
processes at most `2*(rows*cols) + 3` stack entries. -/
def dfsFuel (rows cols : Nat) : Nat := (rows * cols + 1) * (2 * rows * cols + 3)

/-- `check_loop` (`sheet.rs:221-244`): direct self-reference, direct
membership, then `dfs` with a fresh bitmap. -/
def check_loop (startR startC tgtR tgtC rows cols : Nat) (s : SheetData) : Bool :=
  if startR = tgtR ∧ startC = tgtC then true
  else if (findA (getCell s startR startC).dependencies tgtR tgtC).isSome then true
  else
    (dfs (dfsFuel rows cols) startR startC tgtR tgtC cols
      (List.replicate (rows * cols) false) s).1

mutual

/-- `dfs_range` (`sheet.rs:271-307`): rectangle test first, then the visited
check, then the tree walk that recurses into each dependency (this recursion
is live — the callee's rectangle test precedes its visited check).  Fuel as
in `dfs`. -/
def dfs_range : Nat → Nat → Nat → Nat → Nat → Nat → Nat → Nat → List Bool → SheetData →
    Bool × List Bool
  | 0, _, _, _, _, _, _, _, v, _ => (false, v)
  | f + 1, curR, curC, r1, c1, r2, c2, cols, v, s =>
    if r1 ≤ curR ∧ curR ≤ r2 ∧ c1 ≤ curC ∧ curC ≤ c2 then (true, v)
    else if vtest v (curR * cols + curC) then (false, v)
    else
      dfs_range_stack f [(getCell s curR curC).dependencies] r1 c1 r2 c2 cols
        (vmark v (curR * cols + curC)) s
termination_by structural fuel _ _ _ _ _ _ _ _ _ => fuel

/-- The tree-walk loop of `dfs_range`; like `dfs_stack`, popping a `None`
child exits the loop. -/
def dfs_range_stack : Nat → List Avl → Nat → Nat → Nat → Nat → Nat → List Bool →
    SheetData → Bool × List Bool
  | 0, _, _, _, _, _, _, v, _ => (false, v)
  | _ + 1, [], _, _, _, _, _, v, _ => (false, v)
  | _ + 1, .nil :: _, _, _, _, _, _, v, _ => (false, v)
  | f + 1, .node dr dc l rt _ :: rest, r1, c1, r2, c2, cols, v, s =>
    let hv := dfs_range f dr dc r1 c1 r2 c2 cols v s
    if hv.1 then (true, hv.2)
    else dfs_range_stack f (rt :: l :: rest) r1 c1 r2 c2 cols hv.2 s
termination_by structural fuel _ _ _ _ _ _ _ _ => fuel

end

/-- `check_loop_range` (`sheet.rs:330-353`). -/
def check_loop_range (startR startC r1 c1 r2 c2 rows cols : Nat) (s : SheetData) : Bool :=
  (dfs_range (dfsFuel rows cols) startR startC r1 c1 r2 c2 cols
    (List.replicate (rows * cols) false) s).1

/-! ### Topological sort (`sheet.rs:374-449`) -/

mutual

/-- `topological_sort_util` (`sheet.rs:374-428`): mark the cell visited (or
return), run the `dep_stack` loop over its `dependencies` tree, then push the
cell itself onto the result stack (`List`, head = top).  Fuel as in `dfs`:
decremented on every step so that the recursion is structural, and dominated
by the fuel `topological_sort_from_cell` passes. -/
def topological_sort_util : Nat → Nat → Nat → Nat → List Bool → SheetData →
    List (Nat × Nat) → List Bool × List (Nat × Nat)
  | 0, _, _, _, v, _, stack => (v, stack)
  | f + 1, cellR, cellC, cols, v, s, stack =>
    let idx := cellR * cols + cellC
    if vtest v idx then (v, stack)
    else
      let vs := topo_loop f [((getCell s cellR cellC).dependencies, false)] cols
        (vmark v idx) s stack
      (vs.1, (cellR, cellC) :: vs.2)

/-- The `dep_stack` loop of `topological_sort_util` (`sheet.rs:391-423`).
Popping an unprocessed node pushes the node back marked processed, pushes its
right child (when present), recurses into the node's cell, then pushes the
left child (when present); popping a processed marker peeks at the entry now
on top and pushes *that* entry's cell onto the result stack (this is the
source's duplicate-push behaviour, preserved verbatim). -/
def topo_loop : Nat → List (Avl × Bool) → Nat → List Bool → SheetData →
    List (Nat × Nat) → List Bool × List (Nat × Nat)
  | 0, _, _, v, _, stack => (v, stack)
  | _ + 1, [], _, v, _, stack => (v, stack)
  | f + 1, (_, true) :: rest, cols, v, s, stack =>
    let stack2 := match rest with
      | (Avl.node rr cc _ _ _, _) :: _ => (rr, cc) :: stack
      | _ => stack
    topo_loop f rest cols v s stack2
  | f + 1, (Avl.nil, false) :: rest, cols, v, s, stack => topo_loop f rest cols v s stack
  | f + 1, (Avl.node nr nc l rt h, false) :: rest, cols, v, s, stack =>
    let withRight : List (Avl × Bool) :=
      match rt with
      | Avl.nil => (Avl.node nr nc l rt h, true) :: rest
      | t => (t, false) :: (Avl.node nr nc l rt h, true) :: rest
    let vs := topological_sort_util f nr nc cols v s stack
    let withLeft : List (Avl × Bool) :=
      match l with
      | Avl.nil => withRight
      | t => (t, false) :: withRight
    topo_loop f withLeft cols vs.1 s vs.2

end

/-- Fuel dominating any topological sort on a `rows × cols` sheet: at most
`rows*cols + 1` visits, each looping over at most `3*(rows*cols) + 2` stack
entries. -/
def topoFuel (rows cols : Nat) : Nat := (rows * cols + 1) * (3 * rows * cols + 4)

/-- `topological_sort_from_cell` (`sheet.rs:441-449`). -/
def topological_sort_from_cell (rows cols cellR cellC : Nat) (s : SheetData) :
    List (Nat × Nat) :=
  (topological_sort_util (topoFuel rows cols) cellR cellC cols
    (List.replicate (rows * cols) false) s []).2

/-! ### `evaluate_expression` (`sheet.rs:795-1438`)

The evaluator returns `(status, result, sheet)`: the source's `i32` return
code, the out-parameter `*result`, and the mutated sheet.  `call_value = 1`
is Bind mode, `0` is RecomputeOnly. -/

/-- `SLEEP(<int>)` branch (`sheet.rs:825-844`): garbage inside the
parentheses is a parse error; otherwise the (possibly negative) integer is
the result and the thread sleep itself has no sheet effect.  Note the source
performs *no* dependency maintenance in this branch. -/
def sleep_num_branch (g1 g2 : List Nat) (res0 : Int) (s : SheetData) : Int × Int × SheetData :=
  let rv := (parse_i32 g1).getD (-1)
  if g2 ≠ [] then (-1, res0, s)
  else (0, rv, s)

/-- `SLEEP(<ref>)` branch (`sheet.rs:845-928`). -/
def sleep_cell_branch (label1 row1s temp : List Nat) (rows cols : Nat) (s : SheetData)
    (row col : Nat) (cv : Int) (res0 : Int) : Int × Int × SheetData :=
  if temp ≠ [] then (-1, res0, s)
  else if label1[label1.length]? = some 48 then (-1, res0, s)
  else if row1s.headD 0 = 48 then (-1, res0, s)
  else
    let row1 : Int := (parse_i32 row1s).getD (-1) - 1
    if row1 < 0 then (-1, res0, s)
    else
      let col1 := (col_label_to_index label1).getD 0
      if col1 ≥ cols ∨ (rows : Int) ≤ row1 then (-1, res0, s)
      else
        let r1 := row1.toNat
        if check_loop row col r1 col1 rows cols s then (-4, res0, s)
        else
          let cnt : Nat := if (getCell s r1 col1).status = 1 then 1 else 0
          let rv := (getCell s r1 col1).val
          let s2 := if cv = 1 then
              push_dependent row col r1 col1
                (add_dependency r1 col1 row col (delete_dependencies row col s))
            else s
          if cnt > 0 then (-2, rv, s2)
          else (0, rv, s2)

/-- One operand of the binary branch (`sheet.rs:940-1014`): either a cell
reference (validated, bounds- and cycle-checked; yields value, coordinates
and the tainted-cell count contribution) or an integer literal.  Errors carry
the status code (`-1` parse, `-4` cycle). -/
def process_operand (e : List Nat) (rows cols row col : Nat) (s : SheetData) :
    Except Int (Int × Option (Nat × Nat) × Nat) :=
  match split_label_and_number e with
  | some ln =>
    if ln.2.headD 0 = 48 then .error (-1)
    else
      match col_label_to_index ln.1 with
      | none => .error (-1)
      | some c1 =>
        match parse_i32 ln.2 with
        | none => .error (-1)
        | some rr =>
          let r1 : Int := rr - 1
          if c1 ≥ cols ∨ r1 < 0 ∨ (rows : Int) ≤ r1 then .error (-1)
          else if check_loop row col r1.toNat c1 rows cols s then .error (-4)
          else
            let cell := getCell s r1.toNat c1
            .ok (cell.val, some (r1.toNat, c1), if cell.status = 1 then 1 else 0)
  | none =>
    match parse_i32 e with
    | some v => .ok (v, none, 0)
    | none => .error (-1)

/-- Binary-operator branch (`sheet.rs:929-1053`): split at the found
operator, process both operands, then (Bind mode) clear the writer's forward
edges and install an edge per operand reference — the second only when its
coordinates differ from the first (`sheet.rs:1027`) — then report taint, then
compute, with `/` by zero as `-2`. -/
def binary_branch (t : List Nat) (opIdx op : Nat) (rows cols : Nat) (s : SheetData)
    (row col : Nat) (cv : Int) (res0 : Int) : Int × Int × SheetData :=
  let e1 := trim (t.take opIdx)
  let e2 := trim (t.drop (opIdx + 1))
  match process_operand e1 rows cols row col s with
  | .error e => (e, res0, s)
  | .ok o1 =>
    match process_operand e2 rows cols row col s with
    | .error e => (e, res0, s)
    | .ok o2 =>
      let s1 :=
        if cv = 1 then
          let sa := delete_dependencies row col s
          let sb := match o1.2.1 with
            | some rc => push_dependent row col rc.1 rc.2 (add_dependency rc.1 rc.2 row col sa)
            | none => sa
          match o2.2.1 with
          | some rc =>
            if o1.2.1 = some rc then sb
            else push_dependent row col rc.1 rc.2 (add_dependency rc.1 rc.2 row col sb)
          | none => sb
        else s
      if o1.2.2 + o2.2.2 > 0 then (-2, res0, s1)
      else if op = 43 then (0, wrap32 (o1.1 + o2.1), s1)
      else if op = 45 then (0, wrap32 (o1.1 - o2.1), s1)
      else if op = 42 then (0, wrap32 (o1.1 * o2.1), s1)
      else if op = 47 then
        if o2.1 = 0 then (-2, res0, s1) else (0, i32Div o1.1 o2.1, s1)
      else (-1, res0, s1)

/-- The rectangle `row1..=row2 × col1..=col2` in the iteration order of the
aggregate loops (row-major). -/
def rectCells (r1 c1 r2 c2 : Nat) : List (Nat × Nat) :=
  (List.range' r1 (r2 + 1 - r1)).flatMap
    (fun i => (List.range' c1 (c2 + 1 - c1)).map (fun j => (i, j)))

/-- One `SUM` iteration (`sheet.rs:1142-1164`): read (taint count, wrapped
accumulation), then in Bind mode install the dependency edges.  State:
`(accumulator, taint count, sheet)`. -/
def sum_step (row col : Nat) (cv : Int) (st : Int × Nat × SheetData) (ij : Nat × Nat) :
    Int × Nat × SheetData :=
  let cell := getCell st.2.2 ij.1 ij.2
  let cnt2 := if cell.status = 1 then st.2.1 + 1 else st.2.1
  let s2 := if cv = 1 then
      push_dependent row col ij.1 ij.2 (add_dependency ij.1 ij.2 row col st.2.2)
    else st.2.2
  (wrap32 (st.1 + cell.val), cnt2, s2)

/-- One `MAX` iteration (`sheet.rs:1230-1252`): the source installs the
edges first, then reads the cell (edge installation never changes `val` or
`status`, but the order is mirrored). -/
def max_step (row col : Nat) (cv : Int) (st : Int × Nat × SheetData) (ij : Nat × Nat) :
    Int × Nat × SheetData :=
  let s2 := if cv = 1 then
      push_dependent row col ij.1 ij.2 (add_dependency ij.1 ij.2 row col st.2.2)
    else st.2.2
  let cell := getCell s2 ij.1 ij.2
  let cnt2 := if cell.status = 1 then st.2.1 + 1 else st.2.1
  (max cell.val st.1, cnt2, s2)

/-- One `MIN` iteration (`sheet.rs:1270-1292`): read, then install edges. -/
def min_step (row col : Nat) (cv : Int) (st : Int × Nat × SheetData) (ij : Nat × Nat) :
    Int × Nat × SheetData :=
  let cell := getCell st.2.2 ij.1 ij.2
  let cnt2 := if cell.status = 1 then st.2.1 + 1 else st.2.1
  let s2 := if cv = 1 then
      push_dependent row col ij.1 ij.2 (add_dependency ij.1 ij.2 row col st.2.2)
    else st.2.2
  (min cell.val st.1, cnt2, s2)

/-- Modelled from the spec: the floating-point tail of `STDEV`
(`sheet.rs:1337-1347`) — `round(sqrt(variance))` where
`variance = vnum / count` — computed exactly on rationals with half-away-
from-zero rounding in place of the `f64` `sqrt`/`round` pipeline, which a
shallow integer embedding cannot reproduce bit-for-bit.  No claim below
depends on this value. -/
def stdev_round (vnum : Int) (count : Nat) : Int :=
  ((Nat.sqrt (4 * vnum.toNat / count) + 1) / 2 : Nat)

/-- The `SUM` block (`sheet.rs:1132-1170`): clear the writer's forward edges
in Bind mode, accumulate over the rectangle, report taint (`-2`) or
success. -/
def sum_run (rect : List (Nat × Nat)) (s : SheetData) (row col : Nat)
    (cv : Int) : Int × Int × SheetData :=
  let s0 := if cv = 1 then delete_dependencies row col s else s
  let fin := rect.foldl (sum_step row col cv) (0, 0, s0)
  if fin.2.1 > 0 then (-2, fin.1, fin.2.2) else (0, fin.1, fin.2.2)

/-- The `AVG` block (`sheet.rs:1173-1217`): as `SUM`, then truncating
division by the loop count (the rectangle's size). -/
def avg_run (rect : List (Nat × Nat)) (s : SheetData) (row col : Nat)
    (cv : Int) : Int × Int × SheetData :=
  let s0 := if cv = 1 then delete_dependencies row col s else s
  let fin := rect.foldl (sum_step row col cv) (0, 0, s0)
  let avg := i32Div fin.1 (rect.length : Int)
  if fin.2.1 > 0 then (-2, avg, fin.2.2) else (0, avg, fin.2.2)

/-- The `MAX` block (`sheet.rs:1220-1258`), folding from `i32::MIN`. -/
def max_run (rect : List (Nat × Nat)) (s : SheetData) (row col : Nat)
    (cv : Int) : Int × Int × SheetData :=
  let s0 := if cv = 1 then delete_dependencies row col s else s
  let fin := rect.foldl (max_step row col cv) (-(2 ^ 31), 0, s0)
  if fin.2.1 > 0 then (-2, fin.1, fin.2.2) else (0, fin.1, fin.2.2)

/-- The `MIN` block (`sheet.rs:1260-1298`), folding from `i32::MAX`. -/
def min_run (rect : List (Nat × Nat)) (s : SheetData) (row col : Nat)
    (cv : Int) : Int × Int × SheetData :=
  let s0 := if cv = 1 then delete_dependencies row col s else s
  let fin := rect.foldl (min_step row col cv) (2 ^ 31 - 1, 0, s0)
  if fin.2.1 > 0 then (-2, fin.1, fin.2.2) else (0, fin.1, fin.2.2)

/-- The `STDEV` block (`sheet.rs:1301-1353`): sum and count in a first pass,
integer mean, squared-deviation accumulation in a second pass, then the
modelled `sqrt`/`round` tail. -/
def stdev_run (rect : List (Nat × Nat)) (s : SheetData) (row col : Nat)
    (cv : Int) : Int × Int × SheetData :=
  let s0 := if cv = 1 then delete_dependencies row col s else s
  let fin := rect.foldl (sum_step row col cv) (0, 0, s0)
  let mean := i32Div fin.1 (rect.length : Int)
  let vnum := rect.foldl
    (fun a ij =>
      let d := wrap32 ((getCell fin.2.2 ij.1 ij.2).val - mean)
      a + wrap32 (d * d))
    (0 : Int)
  let res := stdev_round vnum rect.length
  if fin.2.1 > 0 then (-2, res, fin.2.2) else (0, res, fin.2.2)

/-- Validation prefix of the aggregate branch (`sheet.rs:1061-1129`):
trailing garbage, function name, label lengths, leading-zero rows, the
source's character-index checks on the raw expression, bounds and range
order, then the range cycle check.  On success it yields the rectangle to
iterate; on failure the status code (`-1` parse, `-4` cycle). -/
def func_validate (exprRaw func lab1 d1 lab2 d2 temp : List Nat) (rows cols : Nat)
    (s : SheetData) (row col : Nat) : Except Int (List (Nat × Nat)) :=
  if temp ≠ [] then .error (-1)
  else if ¬ (func = str "SUM" ∨ func = str "AVG" ∨ func = str "MAX" ∨ func = str "MIN" ∨
      func = str "STDEV") ∨ lab1.length > 3 ∨ lab2.length > 3 then .error (-1)
  else if d1.headD 0 = 48 then .error (-1)
  else
    let row1 : Int := (parse_i32 d1).getD (-1)
    let row2 : Int := (parse_i32 d2).getD (-1)
    let lenRow1 := int_repr_len row1
    let lenRow2 := int_repr_len row2
    let pos1 := func.length + lab1.length + 1 + lenRow1 + 1 + lab2.length
    if exprRaw[pos1]? = some 48 then .error (-1)
    else if exprRaw[pos1 + lenRow2]? ≠ some 41 then .error (-1)
    else
      let col1 := (col_label_to_index lab1).getD 0
      let col2 := (col_label_to_index lab2).getD 0
      let r1 : Int := row1 - 1
      let r2 : Int := row2 - 1
      if col1 ≥ cols ∨ r1 < 0 ∨ (rows : Int) ≤ r1 ∨ col2 ≥ cols ∨ r2 < 0 ∨
          (rows : Int) ≤ r2 ∨ r2 < r1 ∨ col2 < col1 then .error (-1)
      else if check_loop_range row col r1.toNat col1 r2.toNat col2 rows cols s then
        .error (-4)
      else .ok (rectCells r1.toNat col1 r2.toNat col2)

/-- Aggregate branch of the evaluator (`sheet.rs:1055-1355`), entered once
`FUNC_REGEX` has matched; `exprRaw` is the evaluator's untrimmed argument,
used by the source's character-index checks. -/
def func_branch (exprRaw func lab1 d1 lab2 d2 temp : List Nat) (rows cols : Nat)
    (s : SheetData) (row col : Nat) (cv : Int) (res0 : Int) : Int × Int × SheetData :=
  match func_validate exprRaw func lab1 d1 lab2 d2 temp rows cols s row col with
  | .error e => (e, res0, s)
  | .ok rect =>
    if func = str "SUM" then sum_run rect s row col cv
    else if func = str "AVG" then avg_run rect s row col cv
    else if func = str "MAX" then max_run rect s row col cv
    else if func = str "MIN" then min_run rect s row col cv
    else stdev_run rect s row col cv

/-- Single cell-reference branch (`sheet.rs:1359-1435`). -/
def cell_ref_branch (label1 row1s temp : List Nat) (rows cols : Nat) (s : SheetData)
    (row col : Nat) (cv : Int) (res0 : Int) : Int × Int × SheetData :=
  if temp ≠ [] then (-1, res0, s)
  else if label1[label1.length]? = some 48 then (-1, res0, s)
  else if row1s.headD 0 = 48 then (-1, res0, s)
  else
    let row1 : Int := (parse_i32 row1s).getD (-1) - 1
    if row1 < 0 then (-1, res0, s)
    else
      let col1 := (col_label_to_index label1).getD 0
      if col1 ≥ cols ∨ (rows : Int) ≤ row1 then (-1, res0, s)
      else
        let r1 := row1.toNat
        if check_loop row col r1 col1 rows cols s then (-4, res0, s)
        else
          let cnt : Nat := if (getCell s r1 col1).status = 1 then 1 else 0
          let rv := (getCell s r1 col1).val
          let s2 := if cv = 1 then
              push_dependent row col r1 col1
                (add_dependency r1 col1 row col (delete_dependencies row col s))
            else s
          if cnt > 0 then (-2, rv, s2)
          else (0, rv, s2)

/-- `evaluate_expression` (`sheet.rs:795-1438`): the branches are tried in
the source's order — integer literal, `SLEEP(n)`, `SLEEP(ref)`, binary
operator (a `+ - * /` hit anywhere pre-empts the remaining shapes), range
aggregate, single reference, else parse error. -/
def evaluate_expression (expr : List Nat) (rows cols : Nat) (s : SheetData)
    (row col : Nat) (call_value : Int) (res0 : Int) : Int × Int × SheetData :=
  let t := trim expr
  match parse_i32 t with
  | some v => (0, v, if call_value = 1 then delete_dependencies row col s else s)
  | none =>
  match matchSleepNum t with
  | some g => sleep_num_branch g.1 g.2 res0 s
  | none =>
  match matchSleepCell t with
  | some g => sleep_cell_branch g.1 g.2.1 g.2.2 rows cols s row col call_value res0
  | none =>
  match findOp t with
  | some io => binary_branch t io.1 io.2 rows cols s row col call_value res0
  | none =>
  match matchFunc t with
  | some g =>
    func_branch expr g.1 g.2.1 g.2.2.1 g.2.2.2.1 g.2.2.2.2.1 g.2.2.2.2.2 rows cols s row col
      call_value res0
  | none =>
  match matchCellRef t with
  | some g => cell_ref_branch g.1 g.2.1 g.2.2 rows cols s row col call_value res0
  | none => (-1, res0, s)

/-! ### `execute_command` (`sheet.rs:1471-1620`) -/

/-- `str::split_once('=')`. -/
def split_once (l : List Nat) (ch : Nat) : Option (List Nat × List Nat) :=
  match find_char l ch with
  | none => none
  | some i => some (l.take i, l.drop (i + 1))

/-- The dependent-recomputation loop of `execute_command`
(`sheet.rs:1553-1572` and the identical `sheet.rs:1597-1612`): pop cells off
the topological stack, re-evaluate each stored expression in RecomputeOnly
mode, and write `val`/`status` on success or mark `status = 1` on `-2`
(any other code changes nothing). -/
def recompute_loop : List (Nat × Nat) → Nat → Nat → SheetData → SheetData
  | [], _, _, s => s
  | rc :: rest, rows, cols, s =>
    let e := (getCell s rc.1 rc.2).expression
    let out := evaluate_expression e rows cols s rc.1 rc.2 0 0
    let s2 :=
      if out.1 = 0 ∨ out.1 = 1 then
        updCell out.2.2 rc.1 rc.2 (fun c => { c with val := out.2.1, status := 0 })
      else if out.1 = -2 then
        updCell out.2.2 rc.1 rc.2 (fun c => { c with status := 1 })
      else out.2.2
    recompute_loop rest rows cols s2

/-- `execute_command(input, rows, cols, sheet)` (`sheet.rs:1471-1620`),
returning `(status, sheet)`.  The viewport commands (`w a s d`,
`scroll_to`, the output flag) only touch presentational globals, so they
return their status codes with the sheet unchanged. -/
def execute_command (input : List Nat) (rows cols : Nat) (s : SheetData) :
    Int × SheetData :=
  if input = str "q" then (1, s)
  else if input = str "w" ∨ input = str "s" ∨ input = str "a" ∨ input = str "d" then (0, s)
  else if input = str "disable_output" then (0, s)
  else if input = str "enable_output" then (0, s)
  else if input.take 10 = str "scroll_to " then
    let captures := input.drop 10
    let dp := (find_first isDigitCode captures).getD 0
    let colLabel := captures.take dp
    let rowStr := captures.drop dp
    if rowStr.headD 0 = 48 then (-1, s)
    else
      match col_label_to_index colLabel with
      | none => (-1, s)
      | some cl =>
        match parse_usize rowStr with
        | none => (-1, s)
        | some r =>
          if cl ≥ cols ∨ r - 1 ≥ rows then (-1, s) else (0, s)
  else
    match split_once input 61 with
    | none => (-1, s)
    | some le =>
      match label_to_index (trim le.1) with
      | none => (-1, s)
      | some rc =>
        if rc.1 ≥ rows ∨ rc.2 ≥ cols then (-1, s)
        else
          let out := evaluate_expression (trim le.2) rows cols s rc.1 rc.2 1 0
          if out.1 = 0 ∨ out.1 = 1 then
            let s2 := updCell out.2.2 rc.1 rc.2
              (fun c => { c with val := out.2.1, expression := trim le.2, status := 0 })
            let stack := topological_sort_from_cell rows cols rc.1 rc.2 s2
            (0, recompute_loop stack.tail rows cols s2)
          else if out.1 = -2 then
            let s2 := updCell out.2.2 rc.1 rc.2
              (fun c => { c with expression := trim le.2, status := 1 })
            let stack := topological_sort_from_cell rows cols rc.1 rc.2 s2
            (-2, recompute_loop stack.tail rows cols s2)
          else (out.1, out.2.2)

/-- Run a list of commands in order, collecting the status codes
(the `main` read-eval loop, `sheet.rs:1696-1726`). -/
def run_commands (rows cols : Nat) : List (List Nat) → SheetData → List Int × SheetData
  | [], s => ([], s)
  | cmd :: rest, s =>
    let out := execute_command cmd rows cols s
    let tl := run_commands rows cols rest out.2
    (out.1 :: tl.1, tl.2)

/-! ### Specification-side definitions -/

/-- Modelled from the spec (P6): the decimal rendering of the 1-based row
number (1–3 digits, no leading zero); together with `col_index_to_label` it
forms the `format(row, col)` of the round-trip property. -/
def dec_digits (n : Nat) : List Nat :=
  if n < 10 then [48 + n]
  else if n < 100 then [48 + n / 10, 48 + n % 10]
  else [48 + n / 100, 48 + n / 10 % 10, 48 + n % 10]

/-- Modelled from the spec's corrected wording of the operator split: the
evaluator tries `+`, `-`, `*`, `/` in that order and splits at the first
occurrence of the first of those characters present anywhere in the
expression (so any `+` takes precedence over an earlier `-`). -/
def first_op_split_spec (l : List Nat) : Option (Nat × Nat) :=
  if 43 ∈ l then (find_char l 43).map (fun i => (i, 43))
  else if 45 ∈ l then (find_char l 45).map (fun i => (i, 45))
  else if 42 ∈ l then (find_char l 42).map (fun i => (i, 42))
  else if 47 ∈ l then (find_char l 47).map (fun i => (i, 47))
  else none

/-! ### Concrete scenario states

Each scenario runs a fixed command list on a fresh sheet; cells are `A1 =
(0,0)`, `B1 = (0,1)`, `C1 = (0,2)`, `D1 = (0,3)`. -/

/-- State after `A1=B1+C1` on a fresh `1×3` sheet: `A1`'s forward-edge stack
is `[C1, B1]` and both `B1` and `C1` hold `A1` in their reverse index. -/
def c1_pre : SheetData :=
  (run_commands 1 3 [str "A1=B1+C1"] (mkSheet 1 3)).2

/-- `A1=B1`, `B1=C1`, `C1=A1` on a fresh `1×3` sheet: the third edit closes
a dependency loop of length three. -/
def c2_run : List Int × SheetData :=
  run_commands 1 3 [str "A1=B1", str "B1=C1", str "C1=A1"] (mkSheet 1 3)

/-- `A1=B1+C1`, `A1=5`, `B1=A1` on a fresh `1×3` sheet: after the rewrite of
`A1`, the edit `B1=A1` closes no loop. -/
def c2_phantom : List Int × SheetData :=
  run_commands 1 3 [str "A1=B1+C1", str "A1=5", str "B1=A1"] (mkSheet 1 3)

/-- `A1=B1`, then `A1=SLEEP(-1)` on a fresh `1×2` sheet. -/
def c3_run : List Int × SheetData :=
  run_commands 1 2 [str "A1=B1", str "A1=SLEEP(-1)"] (mkSheet 1 2)

/-- `D1=10`, `B1=A1+0`, `C1=B1+D1`, `A1=C1` on a fresh `1×4` sheet: the last
edit closes a loop at traversal depth two. -/
def c5_run : List Int × SheetData :=
  run_commands 1 4 [str "D1=10", str "B1=A1+0", str "C1=B1+D1", str "A1=C1"] (mkSheet 1 4)

/-- `A1=10/0`, `B1=A1+1` on a fresh `1×2` sheet. -/
def c6_mid : List Int × SheetData :=
  run_commands 1 2 [str "A1=10/0", str "B1=A1+1"] (mkSheet 1 2)

/-- `A1=10/0`, `B1=A1+1`, `A1=5` on a fresh `1×2` sheet. -/
def c6_run : List Int × SheetData :=
  run_commands 1 2 [str "A1=10/0", str "B1=A1+1", str "A1=5"] (mkSheet 1 2)

/-- State after `A1=1`, `B1=A1` on a fresh `1×2` sheet. -/
def c7_pre : SheetData :=
  (run_commands 1 2 [str "A1=1", str "B1=A1"] (mkSheet 1 2)).2

/-- Two near-maximal literals, their sum, and `SUM` over both, on a fresh
`1×4` sheet. -/
def c10_run : List Int × SheetData :=
  run_commands 1 4
    [str "A1=2000000000", str "B1=2000000000", str "C1=A1+B1", str "D1=SUM(A1:B1)"]
    (mkSheet 1 4)

/-! ### Lemmas: a cycle rejection (`-4`) mutates nothing

Every `-4` return site in `evaluate_expression` precedes the branch's first
sheet mutation, and `check_loop` / `check_loop_range` are pure, so a `-4`
outcome returns the input sheet unchanged; `execute_command` passes both the
code and the sheet through. -/

theorem sleep_num_branch_sheet (g1 g2 : List Nat) (r0 : Int) (s : SheetData) :
    (sleep_num_branch g1 g2 r0 s).2.2 = s := by
  unfold sleep_num_branch
  split <;> rfl

theorem sleep_cell_branch_minus4 (label1 row1s temp : List Nat) (rows cols : Nat)
    (s : SheetData) (row col : Nat) (cv : Int) (r0 : Int) :
    (sleep_cell_branch label1 row1s temp rows cols s row col cv r0).1 = -4 →
    (sleep_cell_branch label1 row1s temp rows cols s row col cv r0).2.2 = s := by
  unfold sleep_cell_branch
  dsimp only
  repeat' split
  all_goals intro h
  all_goals first
    | rfl
    | simp at h

theorem binary_branch_minus4 (t : List Nat) (opIdx op : Nat) (rows cols : Nat)
    (s : SheetData) (row col : Nat) (cv : Int) (r0 : Int) :
    (binary_branch t opIdx op rows cols s row col cv r0).1 = -4 →
    (binary_branch t opIdx op rows cols s row col cv r0).2.2 = s := by
  unfold binary_branch
  dsimp only
  repeat' split
  all_goals intro h
  all_goals first
    | rfl
    | simp at h

theorem sum_run_ne_cycle (rect : List (Nat × Nat)) (s : SheetData) (row col : Nat)
    (cv : Int) : ¬ (sum_run rect s row col cv).1 = -4 := by
  unfold sum_run
  dsimp only
  repeat' split
  all_goals simp

theorem avg_run_ne_cycle (rect : List (Nat × Nat)) (s : SheetData) (row col : Nat)
    (cv : Int) : ¬ (avg_run rect s row col cv).1 = -4 := by
  unfold avg_run
  dsimp only
  repeat' split
  all_goals simp

theorem max_run_ne_cycle (rect : List (Nat × Nat)) (s : SheetData) (row col : Nat)
    (cv : Int) : ¬ (max_run rect s row col cv).1 = -4 := by
  unfold max_run
  dsimp only
  repeat' split
  all_goals simp

theorem min_run_ne_cycle (rect : List (Nat × Nat)) (s : SheetData) (row col : Nat)
    (cv : Int) : ¬ (min_run rect s row col cv).1 = -4 := by
  unfold min_run
  dsimp only
  repeat' split
  all_goals simp

theorem stdev_run_ne_cycle (rect : List (Nat × Nat)) (s : SheetData) (row col : Nat)
    (cv : Int) : ¬ (stdev_run rect s row col cv).1 = -4 := by
  unfold stdev_run
  dsimp only
  repeat' split
  all_goals simp

set_option maxHeartbeats 1000000 in
theorem func_branch_minus4 (exprRaw func lab1 d1 lab2 d2 temp : List Nat) (rows cols : Nat)
    (s : SheetData) (row col : Nat) (cv : Int) (r0 : Int) :
    (func_branch exprRaw func lab1 d1 lab2 d2 temp rows cols s row col cv r0).1 = -4 →
    (func_branch exprRaw func lab1 d1 lab2 d2 temp rows cols s row col cv r0).2.2 = s := by
  unfold func_branch
  repeat' split
  · exact fun _ => rfl
  · exact fun h => absurd h (sum_run_ne_cycle _ _ _ _ _)
  · exact fun h => absurd h (avg_run_ne_cycle _ _ _ _ _)
  · exact fun h => absurd h (max_run_ne_cycle _ _ _ _ _)
  · exact fun h => absurd h (min_run_ne_cycle _ _ _ _ _)
  · exact fun h => absurd h (stdev_run_ne_cycle _ _ _ _ _)

theorem cell_ref_branch_minus4 (label1 row1s temp : List Nat) (rows cols : Nat)
    (s : SheetData) (row col : Nat) (cv : Int) (r0 : Int) :
    (cell_ref_branch label1 row1s temp rows cols s row col cv r0).1 = -4 →
    (cell_ref_branch label1 row1s temp rows cols s row col cv r0).2.2 = s := by
  unfold cell_ref_branch
  dsimp only
  repeat' split
  all_goals intro h
  all_goals first
    | rfl
    | simp at h

set_option maxHeartbeats 1000000 in
theorem evaluate_expression_minus4 (expr : List Nat) (rows cols : Nat) (s : SheetData)
    (row col : Nat) (cv : Int) (r0 : Int) :
    (evaluate_expression expr rows cols s row col cv r0).1 = -4 →
    (evaluate_expression expr rows cols s row col cv r0).2.2 = s := by
  unfold evaluate_expression
  dsimp only
  repeat' split
  all_goals first
    | exact fun h => absurd h (by simp)
    | exact fun _ => sleep_num_branch_sheet ..
    | exact sleep_cell_branch_minus4 _ _ _ _ _ _ _ _ _ _
    | exact binary_branch_minus4 _ _ _ _ _ _ _ _ _ _
    | exact func_branch_minus4 _ _ _ _ _ _ _ _ _ _ _ _ _ _
    | exact cell_ref_branch_minus4 _ _ _ _ _ _ _ _ _ _
    | exact fun _ => rfl

/-- C7: when an assignment is rejected by the cycle check (status `-4`,
prompt `Loop Detected!`), `execute_command` leaves the sheet — every cell's
value, expression, status, forward-edge stack and reverse-edge tree —
exactly as it was. -/
theorem c7_cycle_rejection_no_mutation (input : List Nat) (rows cols : Nat)
    (s : SheetData) :
    (execute_command input rows cols s).1 = -4 → (execute_command input rows cols s).2 = s := by
  unfold execute_command
  dsimp only
  repeat' split
  all_goals intro h
  all_goals first
    | rfl
    | (simp at h; done)
    | exact evaluate_expression_minus4 _ _ _ _ _ _ _ _ h

/-- C7 witness: after `A1=1`, `B1=A1` on a fresh `1×2` sheet (`A1 = 1`,
`B1 = 1`), the command `A1=B1` is rejected as a cycle and the sheet value is
unchanged. -/
theorem c7_witness :
    (execute_command (str "A1=B1") 1 2 c7_pre).1 = -4 ∧
    (execute_command (str "A1=B1") 1 2 c7_pre).2 = c7_pre ∧
    (getCell c7_pre 0 0).val = 1 ∧ (getCell c7_pre 0 1).val = 1 :=
  ⟨by decide, c7_cycle_rejection_no_mutation (str "A1=B1") 1 2 c7_pre (by decide),
    by decide, by decide⟩

/-- C1: `delete_dependencies` does *not* remove the writer from the reverse
index of every forward target.  After `A1=B1+C1` the stack of `A1` is
`[C1, B1]`; `delete_dependencies` empties the whole stack via `take()` but
deletes `A1` only from the reverse index of the top entry `C1`, leaving the
stale entry `A1` inside `B1.dependencies`, so the two indexes are no longer
mutually consistent (I4 fails). -/
theorem c1_delete_dependencies_leaves_stale_edge :
    (getCell c1_pre 0 0).dependents = [(0, 2), (0, 1)] ∧
    (getCell (delete_dependencies 0 0 c1_pre) 0 0).dependents = [] ∧
    (findA (getCell (delete_dependencies 0 0 c1_pre) 0 2).dependencies 0 0).isSome = false ∧
    (findA (getCell (delete_dependencies 0 0 c1_pre) 0 1).dependencies 0 0).isSome = true := by
  decide

/-- C2: the single-target cycle check misses paths of length ≥ 2 (`dfs`
marks each neighbour visited before recursing into it, so the recursive call
returns immediately), and stale reverse edges produce phantom cycles.  After
`A1=B1` and `B1=C1`, the edit `C1=A1` closes a three-cycle yet returns
status `0` and installs the loop (`A1 ∈ B1.dependencies`,
`B1 ∈ C1.dependencies`, `C1 ∈ A1.dependencies`); conversely in `c2_phantom`
the edit `B1=A1` closes no loop (`A1` was rewritten to the literal `5`) yet
returns `-4`. -/
theorem c2_cycle_check_wrong :
    c2_run.1 = [0, 0, 0] ∧
    (findA (getCell c2_run.2 0 1).dependencies 0 0).isSome = true ∧
    (findA (getCell c2_run.2 0 2).dependencies 0 1).isSome = true ∧
    (findA (getCell c2_run.2 0 0).dependencies 0 2).isSome = true ∧
    c2_phantom.1 = [0, 0, -4] := by
  decide

/-- C3: the `SLEEP(n)` branch performs no dependency maintenance.  After
`A1=B1` the formula `A1=SLEEP(-1)` is accepted with status `0`, but `A1`'s
forward-edge stack still holds `B1` and `B1`'s reverse index still records
`A1`, instead of being empty as the Bind contract requires. -/
theorem c3_sleep_keeps_old_edges :
    c3_run.1 = [0, 0] ∧
    (getCell c3_run.2 0 0).expression = str "SLEEP(-1)" ∧
    (getCell c3_run.2 0 0).dependents = [(0, 1)] ∧
    (findA (getCell c3_run.2 0 1).dependencies 0 0).isSome = true := by
  decide

/-- C5: value consistency (P3) fails on the code.  After `D1=10`, `B1=A1+0`,
`C1=B1+D1` and `A1=C1` (accepted because the cycle check misses the
depth-two path), every command reports success, `A1` ends with status Ok and
stored value `10`, yet re-evaluating its stored expression `C1` in
RecomputeOnly mode yields `20`: `A1` is left stale. -/
theorem c5_stale_value_after_command :
    c5_run.1 = [0, 0, 0, 0] ∧
    (getCell c5_run.2 0 0).status = 0 ∧
    (getCell c5_run.2 0 0).expression = str "C1" ∧
    (getCell c5_run.2 0 0).val = 10 ∧
    (evaluate_expression (str "C1") 1 4 c5_run.2 0 0 0 0).1 = 0 ∧
    (evaluate_expression (str "C1") 1 4 c5_run.2 0 0 0 0).2.1 = 20 := by
  decide

/-- C6: division by zero installs the formula and taints the cell, taint
propagates through a read, and repairing the source restores Ok values.
After `A1=10/0` and `B1=A1+1` both cells have status Err with their formulas
installed; after `A1=5` both are Ok and `B1 = 6`. -/
theorem c6_divzero_taint_and_repair :
    c6_mid.1 = [-2, -2] ∧
    (getCell c6_mid.2 0 0).status = 1 ∧
    (getCell c6_mid.2 0 0).expression = str "10/0" ∧
    (getCell c6_mid.2 0 1).status = 1 ∧
    (getCell c6_mid.2 0 1).expression = str "A1+1" ∧
    c6_run.1 = [-2, -2, 0] ∧
    (getCell c6_run.2 0 0).status = 0 ∧
    (getCell c6_run.2 0 0).val = 5 ∧
    (getCell c6_run.2 0 1).status = 0 ∧
    (getCell c6_run.2 0 1).val = 6 := by
  decide

/-- C10: `i32` arithmetic wraps modulo `2^32` with no error reporting.  With
`A1 = B1 = 2000000000`, both `C1=A1+B1` and `D1=SUM(A1:B1)` succeed with
status Ok and store `4000000000 - 2^32 = -294967296`; no command status and
no cell status reflects the overflow. -/
theorem c10_arithmetic_wraps_silently :
    c10_run.1 = [0, 0, 0, 0] ∧
    (getCell c10_run.2 0 2).val = -294967296 ∧
    (getCell c10_run.2 0 2).status = 0 ∧
    (getCell c10_run.2 0 3).val = -294967296 ∧
    (getCell c10_run.2 0 3).status = 0 ∧
    wrap32 (2000000000 + 2000000000) = -294967296 ∧
    (-294967296 : Int) = 4000000000 - 2 ^ 32 := by
  decide

/-! ### C8: label round-trip helpers -/

/-- ASCII code of the letter for a column digit `a < 26` is uppercase. -/
theorem isUpper_letter (a : Nat) (h : a ≤ 25) : isUpperCode (65 + a) = true := by
  simp [isUpperCode]; omega

theorem isUpper_digit (d : Nat) (h : d ≤ 9) : isUpperCode (48 + d) = false := by
  simp [isUpperCode]; omega

theorem isDigit_digit (d : Nat) (h : d ≤ 9) : isDigitCode (48 + d) = true := by
  simp [isDigitCode]; omega

theorem cil_go_small (fuel i : Nat) (acc : List Nat) (hf : 0 < fuel) (hi : i < 26) :
    cil_go fuel i acc = (65 + i) :: acc := by
  cases fuel with
  | zero => omega
  | succ f =>
    simp only [cil_go]
    simp [Nat.div_eq_of_lt hi, Nat.mod_eq_of_lt hi]

theorem cil_go_two (fuel i : Nat) (acc : List Nat) (hf : 2 ≤ fuel) (hlo : 26 ≤ i)
    (hhi : i < 702) :
    cil_go fuel i acc = (65 + (i / 26 - 1)) :: (65 + i % 26) :: acc := by
  cases fuel with
  | zero => omega
  | succ f =>
    simp only [cil_go]
    have h0 : ¬ i / 26 = 0 := by omega
    simp only [h0, if_false]
    rw [cil_go_small f (i / 26 - 1) _ (by omega) (by omega)]

theorem cil_go_three (fuel i : Nat) (acc : List Nat) (hf : 3 ≤ fuel) (hlo : 702 ≤ i)
    (hhi : i ≤ 18277) :
    cil_go fuel i acc =
      (65 + ((i / 26 - 1) / 26 - 1)) :: (65 + (i / 26 - 1) % 26) :: (65 + i % 26) :: acc := by
  cases fuel with
  | zero => omega
  | succ f =>
    simp only [cil_go]
    have h0 : ¬ i / 26 = 0 := by omega
    simp only [h0, if_false]
    rw [cil_go_two f (i / 26 - 1) _ (by omega) (by omega) (by omega)]

theorem lti_1_1 (a d : Nat) (ha : a ≤ 25) (hd1 : 1 ≤ d) (hd9 : d ≤ 9) :
    label_to_index [65 + a, 48 + d] = some (d - 1, a) := by
  have hu := isUpper_letter a ha
  have hdu := isUpper_digit d hd9
  have hdd := isDigit_digit d hd9
  unfold label_to_index
  simp [lti_go, hu, hdu, hdd]
  omega

theorem lti_1_2 (a d e : Nat) (ha : a ≤ 25) (hd1 : 1 ≤ d) (hd9 : d ≤ 9) (he9 : e ≤ 9) :
    label_to_index [65 + a, 48 + d, 48 + e] = some (e + 10 * d - 1, a) := by
  have hu := isUpper_letter a ha
  unfold label_to_index
  simp [lti_go, hu, isUpper_digit d hd9, isDigit_digit d hd9,
    isUpper_digit e he9, isDigit_digit e he9]
  all_goals omega

theorem lti_1_3 (a d e f : Nat) (ha : a ≤ 25) (hd1 : 1 ≤ d) (hd9 : d ≤ 9) (he9 : e ≤ 9)
    (hf9 : f ≤ 9) :
    label_to_index [65 + a, 48 + d, 48 + e, 48 + f] = some (f + 10 * e + 100 * d - 1, a) := by
  have hu := isUpper_letter a ha
  unfold label_to_index
  simp [lti_go, hu, isUpper_digit d hd9, isDigit_digit d hd9,
    isUpper_digit e he9, isDigit_digit e he9, isUpper_digit f hf9, isDigit_digit f hf9]
  all_goals omega

theorem lti_2_1 (a b d : Nat) (ha : a ≤ 25) (hb : b ≤ 25) (hd1 : 1 ≤ d) (hd9 : d ≤ 9) :
    label_to_index [65 + a, 65 + b, 48 + d] = some (d - 1, b + 26 * a + 26) := by
  unfold label_to_index
  simp [lti_go, isUpper_letter a ha, isUpper_letter b hb,
    isUpper_digit d hd9, isDigit_digit d hd9]
  all_goals omega

theorem lti_2_2 (a b d e : Nat) (ha : a ≤ 25) (hb : b ≤ 25) (hd1 : 1 ≤ d) (hd9 : d ≤ 9)
    (he9 : e ≤ 9) :
    label_to_index [65 + a, 65 + b, 48 + d, 48 + e] = some (e + 10 * d - 1, b + 26 * a + 26) := by
  unfold label_to_index
  simp [lti_go, isUpper_letter a ha, isUpper_letter b hb,
    isUpper_digit d hd9, isDigit_digit d hd9, isUpper_digit e he9, isDigit_digit e he9]
  all_goals omega

theorem lti_2_3 (a b d e f : Nat) (ha : a ≤ 25) (hb : b ≤ 25) (hd1 : 1 ≤ d) (hd9 : d ≤ 9)
    (he9 : e ≤ 9) (hf9 : f ≤ 9) :
    label_to_index [65 + a, 65 + b, 48 + d, 48 + e, 48 + f] =
      some (f + 10 * e + 100 * d - 1, b + 26 * a + 26) := by
  unfold label_to_index
  simp [lti_go, isUpper_letter a ha, isUpper_letter b hb,
    isUpper_digit d hd9, isDigit_digit d hd9, isUpper_digit e he9, isDigit_digit e he9,
    isUpper_digit f hf9, isDigit_digit f hf9]
  all_goals omega

theorem lti_3_1 (a b c d : Nat) (ha : a ≤ 25) (hb : b ≤ 25) (hc : c ≤ 25) (hd1 : 1 ≤ d)
    (hd9 : d ≤ 9) :
    label_to_index [65 + a, 65 + b, 65 + c, 48 + d] =
      some (d - 1, c + 26 * b + 676 * a + 702) := by
  unfold label_to_index
  simp [lti_go, isUpper_letter a ha, isUpper_letter b hb, isUpper_letter c hc,
    isUpper_digit d hd9, isDigit_digit d hd9]
  all_goals omega

theorem lti_3_2 (a b c d e : Nat) (ha : a ≤ 25) (hb : b ≤ 25) (hc : c ≤ 25) (hd1 : 1 ≤ d)
    (hd9 : d ≤ 9) (he9 : e ≤ 9) :
    label_to_index [65 + a, 65 + b, 65 + c, 48 + d, 48 + e] =
      some (e + 10 * d - 1, c + 26 * b + 676 * a + 702) := by
  unfold label_to_index
  simp [lti_go, isUpper_letter a ha, isUpper_letter b hb, isUpper_letter c hc,
    isUpper_digit d hd9, isDigit_digit d hd9, isUpper_digit e he9, isDigit_digit e he9]
  all_goals omega

theorem lti_3_3 (a b c d e f : Nat) (ha : a ≤ 25) (hb : b ≤ 25) (hc : c ≤ 25) (hd1 : 1 ≤ d)
    (hd9 : d ≤ 9) (he9 : e ≤ 9) (hf9 : f ≤ 9) :
    label_to_index [65 + a, 65 + b, 65 + c, 48 + d, 48 + e, 48 + f] =
      some (f + 10 * e + 100 * d - 1, c + 26 * b + 676 * a + 702) := by
  unfold label_to_index
  simp [lti_go, isUpper_letter a ha, isUpper_letter b hb, isUpper_letter c hc,
    isUpper_digit d hd9, isDigit_digit d hd9, isUpper_digit e he9, isDigit_digit e he9,
    isUpper_digit f hf9, isDigit_digit f hf9]
  all_goals omega

theorem dec1 (n : Nat) (h : n < 10) : dec_digits n = [48 + n] := by
  simp [dec_digits, h]

theorem dec2 (n : Nat) (h1 : 10 ≤ n) (h2 : n < 100) :
    dec_digits n = [48 + n / 10, 48 + n % 10] := by
  unfold dec_digits
  rw [if_neg (by omega), if_pos h2]

theorem dec3 (n : Nat) (h1 : 100 ≤ n) :
    dec_digits n = [48 + n / 100, 48 + n / 10 % 10, 48 + n % 10] := by
  unfold dec_digits
  rw [if_neg (by omega), if_neg (by omega)]

theorem cil1 (col : Nat) (h : col < 26) : col_index_to_label col = [65 + col] :=
  cil_go_small (col + 1) col [] (by omega) h

theorem cil2 (col : Nat) (h1 : 26 ≤ col) (h2 : col < 702) :
    col_index_to_label col = [65 + (col / 26 - 1), 65 + col % 26] :=
  cil_go_two (col + 1) col [] (by omega) h1 h2

theorem cil3 (col : Nat) (h1 : 702 ≤ col) (h2 : col ≤ 18277) :
    col_index_to_label col =
      [65 + ((col / 26 - 1) / 26 - 1), 65 + (col / 26 - 1) % 26, 65 + col % 26] :=
  cil_go_three (col + 1) col [] (by omega) h1 h2

/-- C8: label formatting and parsing round-trip.  For every in-range
coordinate pair (`row ≤ 998`, `col ≤ 18277`), rendering the column through the
bijective base-26 `col_index_to_label` and appending the decimal digits of the
1-based row number yields a label that `label_to_index` parses back to exactly
`some (row, col)`. -/
theorem c8_label_roundtrip (row col : Nat) (hr : row ≤ 998) (hc : col ≤ 18277) :
    label_to_index (col_index_to_label col ++ dec_digits (row + 1)) = some (row, col) := by
  rcases Nat.lt_or_ge col 26 with hc1 | hc26
  · rw [cil1 col hc1]
    rcases Nat.lt_or_ge (row + 1) 10 with hn1 | hn10
    · rw [dec1 _ hn1]
      simp only [List.cons_append, List.nil_append]
      rw [lti_1_1 col (row + 1) (by omega) (by omega) (by omega)]
      simp
    · rcases Nat.lt_or_ge (row + 1) 100 with hn2 | hn100
      · rw [dec2 _ hn10 hn2]
        simp only [List.cons_append, List.nil_append]
        rw [lti_1_2 col ((row + 1) / 10) ((row + 1) % 10) (by omega) (by omega) (by omega)
          (by omega)]
        simp only [Option.some.injEq, Prod.mk.injEq, and_true, true_and]
        omega
      · rw [dec3 _ hn100]
        simp only [List.cons_append, List.nil_append]
        rw [lti_1_3 col ((row + 1) / 100) ((row + 1) / 10 % 10) ((row + 1) % 10) (by omega)
          (by omega) (by omega) (by omega) (by omega)]
        simp only [Option.some.injEq, Prod.mk.injEq, and_true, true_and]
        omega
  · rcases Nat.lt_or_ge col 702 with hc2 | hc702
    · rw [cil2 col hc26 hc2]
      rcases Nat.lt_or_ge (row + 1) 10 with hn1 | hn10
      · rw [dec1 _ hn1]
        simp only [List.cons_append, List.nil_append]
        rw [lti_2_1 (col / 26 - 1) (col % 26) (row + 1) (by omega) (by omega) (by omega)
          (by omega)]
        simp only [Option.some.injEq, Prod.mk.injEq, and_true, true_and]
        omega
      · rcases Nat.lt_or_ge (row + 1) 100 with hn2 | hn100
        · rw [dec2 _ hn10 hn2]
          simp only [List.cons_append, List.nil_append]
          rw [lti_2_2 (col / 26 - 1) (col % 26) ((row + 1) / 10) ((row + 1) % 10) (by omega)
            (by omega) (by omega) (by omega) (by omega)]
          simp only [Option.some.injEq, Prod.mk.injEq, and_true, true_and]
          omega
        · rw [dec3 _ hn100]
          simp only [List.cons_append, List.nil_append]
          rw [lti_2_3 (col / 26 - 1) (col % 26) ((row + 1) / 100) ((row + 1) / 10 % 10)
            ((row + 1) % 10) (by omega) (by omega) (by omega) (by omega) (by omega) (by omega)]
          simp only [Option.some.injEq, Prod.mk.injEq, and_true, true_and]
          omega
    · rw [cil3 col hc702 hc]
      rcases Nat.lt_or_ge (row + 1) 10 with hn1 | hn10
      · rw [dec1 _ hn1]
        simp only [List.cons_append, List.nil_append]
        rw [lti_3_1 ((col / 26 - 1) / 26 - 1) ((col / 26 - 1) % 26) (col % 26) (row + 1)
          (by omega) (by omega) (by omega) (by omega) (by omega)]
        simp only [Option.some.injEq, Prod.mk.injEq, and_true, true_and]
        omega
      · rcases Nat.lt_or_ge (row + 1) 100 with hn2 | hn100
        · rw [dec2 _ hn10 hn2]
          simp only [List.cons_append, List.nil_append]
          rw [lti_3_2 ((col / 26 - 1) / 26 - 1) ((col / 26 - 1) % 26) (col % 26)
            ((row + 1) / 10) ((row + 1) % 10) (by omega) (by omega) (by omega) (by omega)
            (by omega) (by omega)]
          simp only [Option.some.injEq, Prod.mk.injEq, and_true, true_and]
          omega
        · rw [dec3 _ hn100]
          simp only [List.cons_append, List.nil_append]
          rw [lti_3_3 ((col / 26 - 1) / 26 - 1) ((col / 26 - 1) % 26) (col % 26)
            ((row + 1) / 100) ((row + 1) / 10 % 10) ((row + 1) % 10) (by omega) (by omega)
            (by omega) (by omega) (by omega) (by omega) (by omega)]
          simp only [Option.some.injEq, Prod.mk.injEq, and_true, true_and]
          omega

/-- C8 witness: the extreme corner `ZZZ999 = (998, 18277)`. -/
theorem c8_witness :
    (998 : Nat) ≤ 998 ∧ (18277 : Nat) ≤ 18277 ∧
      label_to_index (col_index_to_label 18277 ++ dec_digits (998 + 1)) = some (998, 18277) :=
  ⟨le_refl 998, le_refl 18277, c8_label_roundtrip 998 18277 (by decide) (by decide)⟩

/-- A `str::find` miss is exactly non-membership. -/
theorem find_char_eq_none_iff (l : List Nat) (a : Nat) : find_char l a = none ↔ ¬ a ∈ l := by
  induction l with
  | nil => simp [find_char, find_first]
  | cons x xs ih =>
    by_cases hx : x = a
    · subst hx
      simp [find_char, find_first]
    · have hne : (x == a) = false := by simp [hx]
      simp [find_char, find_first, hne, Option.map_eq_none']
      simp [find_char] at ih
      rw [ih]
      constructor
      · intro h
        exact ⟨fun he => hx he.symm, h⟩
      · intro h
        exact h.2

/-- C4 counterexample: the claim says the evaluator splits at the first
(leftmost) occurrence of any of `+ - * /` and that `-5+3` is therefore a
Parse error with an empty left operand.  In fact the leftmost such character
of `-5+3` is the `-` at index 0, but the evaluator splits at the `+` at
index 2 (`'+'` is tried first), parses the left operand `-5` as an integer,
and succeeds with value `-2`. -/
theorem c4_counterexample :
    (str "-5+3").headD 0 = 45 ∧
    findOp (str "-5+3") = some (2, 43) ∧
    (evaluate_expression (str "-5+3") 1 1 (mkSheet 1 1) 0 0 1 0).1 = 0 ∧
    (evaluate_expression (str "-5+3") 1 1 (mkSheet 1 1) 0 0 1 0).2.1 = -2 := by
  decide

/-- C4 (amended): the evaluator's operator search tries `+ - * /` in that
order and splits at the first occurrence of the first operator character
present anywhere in the expression (`first_op_split_spec`); consequently
`-5+3` splits at its `+`, the left operand `-5` parses as an integer, and
the expression evaluates with outcome Ok to `-2` rather than a Parse
error. -/
theorem c4_op_split_priority :
    (∀ l : List Nat, findOp l = first_op_split_spec l) ∧
    findOp (str "-5+3") = some (2, 43) ∧
    (evaluate_expression (str "-5+3") 1 1 (mkSheet 1 1) 0 0 1 0).1 = 0 ∧
    (evaluate_expression (str "-5+3") 1 1 (mkSheet 1 1) 0 0 1 0).2.1 = -2 := by
  refine ⟨?_, by decide, by decide, by decide⟩
  intro l
  unfold findOp first_op_split_spec
  by_cases h1 : 43 ∈ l
  · rcases Option.ne_none_iff_exists.mp
      (fun hn => ((find_char_eq_none_iff l 43).mp hn) h1) with ⟨i, hi⟩
    simp [List.findSome?_cons, hi.symm, h1]
  · have h1n : find_char l 43 = none := (find_char_eq_none_iff l 43).mpr h1
    by_cases h2 : 45 ∈ l
    · rcases Option.ne_none_iff_exists.mp
        (fun hn => ((find_char_eq_none_iff l 45).mp hn) h2) with ⟨i, hi⟩
      simp [List.findSome?_cons, h1n, hi.symm, h1, h2]
    · have h2n : find_char l 45 = none := (find_char_eq_none_iff l 45).mpr h2
      by_cases h3 : 42 ∈ l
      · rcases Option.ne_none_iff_exists.mp
          (fun hn => ((find_char_eq_none_iff l 42).mp hn) h3) with ⟨i, hi⟩
        simp [List.findSome?_cons, h1n, h2n, hi.symm, h1, h2, h3]
      · have h3n : find_char l 42 = none := (find_char_eq_none_iff l 42).mpr h3
        by_cases h4 : 47 ∈ l
        · rcases Option.ne_none_iff_exists.mp
            (fun hn => ((find_char_eq_none_iff l 47).mp hn) h4) with ⟨i, hi⟩
          simp [List.findSome?_cons, h1n, h2n, h3n, hi.symm, h1, h2, h3, h4]
        · have h4n : find_char l 47 = none := (find_char_eq_none_iff l 47).mpr h4
          simp [List.findSome?_cons, h1n, h2n, h3n, h4n, h1, h2, h3, h4]

/-- C9: the aggregate branch divides by the iteration count only after the
range validation has enforced `r1 ≤ r2` and `c1 ≤ c2` (`func_validate`
rejects `r2 < r1 ∨ c2 < c1` with a parse error), and under those constraints
the iterated rectangle — whose length is exactly the divisor used by
`avg_run` and `stdev_run` — is non-empty, so the count divisions cannot be
by zero; the only runtime division failure in the evaluator is the explicit
`/` operator's zero check in `binary_branch`. -/
theorem c9_aggregate_count_positive (r1 c1 r2 c2 : Nat) (hr : r1 ≤ r2) (hc : c1 ≤ c2) :
    0 < (rectCells r1 c1 r2 c2).length ∧ ((rectCells r1 c1 r2 c2).length : Int) ≠ 0 := by
  have hm : (r1, c1) ∈ rectCells r1 c1 r2 c2 := by
    apply List.mem_flatMap.mpr
    refine ⟨r1, List.mem_range'.mpr ⟨0, by omega, by omega⟩, ?_⟩
    exact List.mem_map.mpr ⟨c1, List.mem_range'.mpr ⟨0, by omega, by omega⟩, rfl⟩
  have hp := List.length_pos_of_mem hm
  exact ⟨hp, by exact_mod_cast Nat.pos_iff_ne_zero.mp hp⟩

/-- C9 witness: the one-cell range `A1:A1`. -/
theorem c9_witness :
    (0 : Nat) ≤ 0 ∧ 0 < (rectCells 0 0 0 0).length ∧ ((rectCells 0 0 0 0).length : Int) ≠ 0 :=
  ⟨le_refl 0, c9_aggregate_count_positive 0 0 0 0 (le_refl 0) (le_refl 0)⟩

end Spreadsheet
